import Mathlib

/-!
Verification development for the piston code-execution service.

The definitions below are a shallow embedding of the repository's two
source files:

* `src/api/src/api/v2.js` — the v2 HTTP/WebSocket API router:
  request validation (`get_job`), the batch `POST /execute` handler,
  and the interactive `/connect` WebSocket session handlers.
* `src/packages/mono/6.12.0/compile` — the shared mono compile script
  that branches on the `PISTON_LANGUAGE` environment variable.

JavaScript values that flow through the validation code are modelled by
the inductive type `JSVal` with JS truthiness and `typeof` checks.
Asynchronous engine calls (`Job.prime`, `Job.execute`, `Job.cleanup`)
live in `src/job.js`, which is not part of the source tree; where their
behaviour matters they are modelled as oracle results (`EngineBehavior`)
or, where the spec pins them down, as definitions marked
`Modelled from the spec:`.
-/

namespace Piston

/-- A JavaScript value, as far as the v2 router inspects one: `null`,
`undefined`, booleans, numbers (the limits and timeouts the router
handles are integral), strings, arrays and plain objects. -/
inductive JSVal where
  | null
  | undefined
  | boolv (b : Bool)
  | num (n : Int)
  | str (s : String)
  | arr (xs : List JSVal)
  | obj (fields : List (String × JSVal))

/-- JS truthiness, as used by `if (x)` and `x || y` in the router. -/
def truthy : JSVal → Bool
  | .null => false
  | .undefined => false
  | .boolv b => b
  | .num n => n != 0
  | .str s => s != ""
  | .arr _ => true
  | .obj _ => true

/-- `typeof v === 'string'`. -/
def isString : JSVal → Bool
  | .str _ => true
  | _ => false

/-- `typeof v === 'number'`. -/
def isNumber : JSVal → Bool
  | .num _ => true
  | _ => false

/-- `Array.isArray(v)`. -/
def isArray : JSVal → Bool
  | .arr _ => true
  | _ => false

/-- The numeric value of a `num`; only consulted after an `isNumber` check. -/
def numVal : JSVal → Int
  | .num n => n
  | _ => 0

/-- The string value of a `str`; only consulted after an `isString` check. -/
def strVal : JSVal → String
  | .str s => s
  | _ => ""

/-- The elements of an `arr`; only consulted after an `isArray` check. -/
def arrElems : JSVal → List JSVal
  | .arr xs => xs
  | _ => []

/-- Property access `v.k`. A non-object yields `undefined`. (In JS,
reading a property of `null`/`undefined` throws inside the promise
executor, which also rejects the promise, so for the reject/resolve
behaviour modelled here `undefined` is equivalent.) -/
def getField (v : JSVal) (k : String) : JSVal :=
  match v with
  | .obj fs =>
    match fs.find? (fun p => p.1 == k) with
    | some p => p.2
    | none => .undefined
  | _ => .undefined

/-- JS `a || b`. -/
def jsOr (a b : JSVal) : JSVal := if truthy a then a else b

/-- A runtime descriptor, as far as the v2 router reads one:
`rt.language` and `rt.version.raw`. -/
structure Runtime where
  language : String
  version_raw : String
deriving Repr, DecidableEq

/-- The configured memory ceilings read by `get_job`
(`config.compile_memory_limit`, `config.run_memory_limit`). -/
structure Config where
  compile_memory_limit : Int
  run_memory_limit : Int
deriving Repr, DecidableEq

/-- The request body fields destructured at the top of `get_job`. -/
structure Body where
  language : JSVal
  version : JSVal
  args : JSVal
  stdin : JSVal
  files : JSVal
  compile_memory_limit : JSVal
  run_memory_limit : JSVal
  run_timeout : JSVal
  compile_timeout : JSVal

/-- The `timeouts` object passed to the `Job` constructor. -/
structure Timeouts where
  run : JSVal
  compile : JSVal

/-- The `memory_limits` object passed to the `Job` constructor. -/
structure MemLimits where
  run : JSVal
  compile : JSVal

/-- The argument record of `new Job({...})` built at the end of
`get_job` (src/api/src/api/v2.js lines 105–119). -/
structure Job where
  runtime : Runtime
  -- source field name: `alias` (a Lean keyword)
  aliasName : JSVal
  args : JSVal
  stdin : JSVal
  files : JSVal
  timeouts : Timeouts
  memory_limits : MemLimits

/-- The `for (const [i, file] of files.entries())` loop of `get_job`:
index of the first file whose `.content` is not a string. -/
def first_bad_content : List JSVal → Nat → Option Nat
  | [], _ => none
  | f :: rest, i =>
    if isString (getField f "content") then first_bad_content rest (i + 1)
    else some i

/-- `get_job(body)` from src/api/src/api/v2.js lines 15–122. The runtime
registry (`runtime.get_latest_runtime_matching_language_version`) lives
outside the two source files and is passed in as `lookup`. The promise is
modelled as `Except`: `reject({message})` is `.error message`,
`resolve(new Job(...))` is `.ok`. -/
def get_job (lookup : String → String → Option Runtime) (cfg : Config)
    (body : Body) : Except String Job :=
  if !truthy body.language || !isString body.language then
    .error "language is required as a string"
  else if !truthy body.version || !isString body.version then
    .error "version is required as a string"
  else if !truthy body.files || !isArray body.files then
    .error "files is required as an array"
  else
    match first_bad_content (arrElems body.files) 0 with
    | some i =>
      .error ("files[" ++ toString i ++ "].content is required as a string")
    | none =>
      if truthy body.compile_memory_limit &&
          !isNumber body.compile_memory_limit then
        .error "if specified, compile_memory_limit must be a number"
      else if truthy body.compile_memory_limit &&
          (decide (0 ≤ cfg.compile_memory_limit) &&
            (decide (cfg.compile_memory_limit < numVal body.compile_memory_limit) ||
              decide (numVal body.compile_memory_limit < 0))) then
        .error ("compile_memory_limit cannot exceed the configured limit of "
          ++ toString cfg.compile_memory_limit)
      else if truthy body.run_memory_limit &&
          !isNumber body.run_memory_limit then
        .error "if specified, run_memory_limit must be a number"
      else if truthy body.run_memory_limit &&
          (decide (0 ≤ cfg.run_memory_limit) &&
            (decide (cfg.run_memory_limit < numVal body.run_memory_limit) ||
              decide (numVal body.run_memory_limit < 0))) then
        .error ("run_memory_limit cannot exceed the configured limit of "
          ++ toString cfg.run_memory_limit)
      else
        match lookup (strVal body.language) (strVal body.version) with
        | none =>
          .error (strVal body.language ++ "-" ++ strVal body.version
            ++ " runtime is unknown")
        | some rt =>
          .ok
            ⟨rt, body.language, jsOr body.args (.arr []),
              jsOr body.stdin (.str ""), body.files,
              ⟨jsOr body.run_timeout (.num 3000),
                jsOr body.compile_timeout (.num 10000)⟩,
              ⟨jsOr body.run_memory_limit (.num cfg.run_memory_limit),
                jsOr body.compile_memory_limit
                  (.num cfg.compile_memory_limit)⟩⟩

/-! ## The batch `POST /execute` handler -/

/-- Modelled from the spec: the per-phase result produced by the engine
(`src/job.js`, not part of the source tree) — spec section 3,
"Phase result". -/
structure PhaseResult where
  stdout : String
  stderr : String
  combined_output : String
  exit_code : Option Int
  signal : Option String
  wall_ms : Nat
  message : Option String
deriving Repr, DecidableEq

/-- Modelled from the spec: the value a successful `job.execute()`
resolves to (`src/job.js`, not part of the source tree) — spec section 3,
"Final execution result": `{ language, version, run, compile? }`. -/
structure ExecResult where
  language : String
  version : String
  run : PhaseResult
  compile : Option PhaseResult
deriving Repr, DecidableEq

/-- Oracle for the engine calls awaited by the `POST /execute` handler.
`get_job`, `prime`, `execute` and `cleanup` are each an `Except`: `.ok`
when the awaited promise fulfills, `.error` with the rejection message
when it rejects (`src/job.js` is not part of the source tree, so the
handler is verified for every possible behaviour of these calls). -/
structure EngineBehavior where
  get_job_result : Except String Job
  prime_result : Except String Unit
  execute_result : Except String ExecResult
  cleanup_result : Except String Unit

/-- The engine calls the `POST /execute` handler can make, in order. -/
inductive HandlerCall where
  | prime
  | execute
  | cleanup
deriving Repr, DecidableEq

/-- What the `POST /execute` handler did: which engine calls ran (in
order), the HTTP status of the response, and its body (`.ok result` for
`res.status(200).send(result)`, `.error e` for `res.status(400).json(error)`). -/
structure HandlerOutcome where
  calls : List HandlerCall
  status : Nat
  body : Except String ExecResult

/-- The `router.post('/execute')` handler, src/api/src/api/v2.js lines
218–233: a `try` block awaiting `get_job(req.body)`, `job.prime()`,
`job.execute()`, `job.cleanup()`, then `res.status(200).send(result)`;
any rejection jumps to the `catch`, which answers
`res.status(400).json(error)` with no further engine calls. -/
def post_execute (b : EngineBehavior) : HandlerOutcome :=
  match b.get_job_result with
  | .error e => ⟨[], 400, .error e⟩
  | .ok _ =>
    match b.prime_result with
    | .error e => ⟨[.prime], 400, .error e⟩
    | .ok _ =>
      match b.execute_result with
      | .error e => ⟨[.prime, .execute], 400, .error e⟩
      | .ok r =>
        match b.cleanup_result with
        | .error e => ⟨[.prime, .execute, .cleanup], 400, .error e⟩
        | .ok _ => ⟨[.prime, .execute, .cleanup], 200, .ok r⟩

/-! ## The interactive `/connect` WebSocket session -/

/-- The signal allow-list, src/api/src/api/v2.js line 12. -/
def SIGNALS : List String :=
  ["SIGABRT", "SIGALRM", "SIGBUS", "SIGCHLD", "SIGCLD", "SIGCONT",
   "SIGEMT", "SIGFPE", "SIGHUP", "SIGILL", "SIGINFO", "SIGINT",
   "SIGIO", "SIGIOT", "SIGKILL", "SIGLOST", "SIGPIPE", "SIGPOLL",
   "SIGPROF", "SIGPWR", "SIGQUIT", "SIGSEGV", "SIGSTKFLT", "SIGSTOP",
   "SIGTSTP", "SIGSYS", "SIGTERM", "SIGTRAP", "SIGTTIN", "SIGTTOU",
   "SIGUNUSED", "SIGURG", "SIGUSR1", "SIGUSR2", "SIGVTALRM",
   "SIGXCPU", "SIGXFSZ", "SIGWINCH"]

/-- `SIGNALS.includes(msg.signal)`: `Array.includes` uses strict
equality, so a non-string `msg.signal` is never in the list. -/
def signalAllowed : JSVal → Bool
  | .str s => SIGNALS.contains s
  | _ => false

/-- `msg.stream === "stdin"`: strict equality of a JS value with a
string literal. -/
def isStreamStdin : JSVal → Bool
  | .str s => s == "stdin"
  | _ => false

/-- The immediate effect of one branch of the `/connect` message
handler: do nothing, emit on the session event bus, or close the
socket with a code and reason. -/
inductive WsAction where
  | noop
  | emit (topic : String) (payload : JSVal)
  | close (code : Nat) (reason : String)

/-- The `case "data"` branch of the `/connect` message handler,
src/api/src/api/v2.js lines 174–184: with a job, `stdin` data is
emitted on the bus and any other stream closes with 4004; with no job
the session closes with 4003. -/
def handle_data (job : Option Job) (stream : JSVal) (payload : JSVal) :
    WsAction :=
  match job with
  | some _ =>
    if isStreamStdin stream then .emit "stdin" payload
    else .close 4004 "Can only write to stdin"
  | none => .close 4003 "Not yet initialized"

/-- The `case "signal"` branch of the `/connect` message handler,
src/api/src/api/v2.js lines 185–195: with a job, a signal in `SIGNALS`
is emitted on the bus and any other closes with 4005; with no job the
session closes with 4003. -/
def handle_signal (job : Option Job) (sig : JSVal) : WsAction :=
  match job with
  | some _ =>
    if signalAllowed sig then .emit "signal" sig
    else .close 4005 "Invalid signal"
  | none => .close 4003 "Not yet initialized"

/-- Delay of the initialization timer, src/api/src/api/v2.js line 215. -/
def INIT_TIMEOUT_MS : Nat := 1000

/-- The initialization-timeout callback, src/api/src/api/v2.js lines
211–215: when it fires, the socket is closed with 4001 exactly when no
job has been created yet (`job === null`); otherwise nothing happens. -/
def init_timeout_cb (job : Option Job) : WsAction :=
  match job with
  | none => .close 4001 "Initialization Timeout"
  | some _ => .noop

/-- Modelled from the spec: the Job lifecycle state (spec section 3;
the state machine itself lives in `src/job.js`, which is not part of
the source tree). -/
inductive JobState where
  | Created
  | Primed
  | Executing
  | Done
  | Cleaned
deriving Repr, DecidableEq

/-- Modelled from the spec: the run-time view of a Job that `cleanup()`
acts on — its lifecycle state and whether it still holds a sandbox
slot (`src/job.js` is not part of the source tree; spec sections 3,
4.D and 5). -/
structure JobRun where
  state : JobState
  holdsSlot : Bool
deriving Repr, DecidableEq

/-- Modelled from the spec: `Job.cleanup()` (`src/job.js`, not part of
the source tree) — spec section 4.D: legal from any state, transitions
the Job to `Cleaned`, and releases the slot (idempotently: a second
call is a no-op). -/
def cleanup (_j : JobRun) : JobRun := ⟨.Cleaned, false⟩

/-- The `ws.on("close")` handler, src/api/src/api/v2.js lines 205–209:
`job.cleanup()` is awaited exactly when a job exists. Returns the job
runs after the handler (the spec-modelled `cleanup` applied when a job
exists) together with whether `cleanup()` was invoked. -/
def handle_close (job : Option JobRun) : Option JobRun × Bool :=
  match job with
  | some j => (some (cleanup j), true)
  | none => (none, false)

/-! ## The shared mono compile script -/

/-- `[A-Z]` of the `check_errors` grep pattern. -/
def isUpperAZ (c : Char) : Bool := decide ('A' ≤ c) && decide (c ≤ 'Z')

/-- `[0-9]` of the `check_errors` grep pattern. -/
def isDigit09 (c : Char) : Bool := decide ('0' ≤ c) && decide (c ≤ '9')

/-- One-or-more (`\+`) of a character class: consumes at least one
matching character, then the maximal run. -/
def afterPlus (p : Char → Bool) : List Char → Option (List Char)
  | [] => none
  | c :: rest => if p c then some (rest.dropWhile p) else none

/-- Whether the grep pattern of `check_errors`,
`error [A-Z]\+[0-9]\+:`, matches at the start of the text. The two
character classes and `:` are disjoint, so the maximal-run reading
matches exactly when some reading does. -/
def diagAt (cs : List Char) : Bool :=
  match cs with
  | 'e' :: 'r' :: 'r' :: 'o' :: 'r' :: ' ' :: rest =>
    match afterPlus isUpperAZ rest with
    | some r2 =>
      match afterPlus isDigit09 r2 with
      | some (':' :: _) => true
      | _ => false
    | none => false
  | _ => false

/-- `grep -q 'error [A-Z]\+[0-9]\+:' check.txt`: whether the pattern
matches anywhere in the captured compiler output. -/
def hasErrorDiag : List Char → Bool
  | [] => false
  | c :: rest => diagAt (c :: rest) || hasErrorDiag rest

/-- The observable effect of the `check_errors` shell function,
src/packages/mono/6.12.0/compile lines 3–6: when the grep pattern
matches, `check.txt` is written to stderr, otherwise to stdout; its
exit status is that of `rm check.txt`, which succeeds (the compiler
redirection just created the file), i.e. 0 — never the compiler
status. -/
structure CheckErrorsResult where
  toStderr : Option String
  toStdout : Option String
  status : Nat
deriving Repr, DecidableEq

/-- `check_errors` applied to the captured compiler output. -/
def check_errors (captured : String) : CheckErrorsResult :=
  if hasErrorDiag captured.data then ⟨some captured, none, 0⟩
  else ⟨none, some captured, 0⟩

/-- The observable effect of one run of the mono compile script:
which extension the staged files were renamed to, which compiler ran,
the `check_errors` routing of the captured output, the diagnostic
printed by the fallback branch, and the script exit status. -/
structure MonoResult where
  renameExt : Option String
  compiler : Option String
  checkOut : Option CheckErrorsResult
  diag : Option String
  exitStatus : Nat
deriving Repr, DecidableEq

/-- The mono compile script, src/packages/mono/6.12.0/compile lines
8–23: `case "${PISTON_LANGUAGE}"` with branches `csharp` (rename to
`.cs`, compile with `csc`, then `check_errors`), `basic` (rename to
`.vb`, compile with `vbnc`, then `check_errors`), and a fallback that
prints a diagnostic and exits 1. `compilerOutput` is what the compiler
wrote into `check.txt`; `compilerStatus` is the compiler exit status,
which the script never consults (no `set -e`, and `check_errors` ends
with `rm`). -/
def mono_compile (pistonLanguage : String) (compilerOutput : String)
    (_compilerStatus : Nat) : MonoResult :=
  if pistonLanguage == "csharp" then
    ⟨some ".cs", some "csc", some (check_errors compilerOutput), none,
      (check_errors compilerOutput).status⟩
  else if pistonLanguage == "basic" then
    ⟨some ".vb", some "vbnc", some (check_errors compilerOutput), none,
      (check_errors compilerOutput).status⟩
  else
    ⟨none, none, none,
      some ("How did you get here? (" ++ pistonLanguage ++ ")"), 1⟩

/-! ## Concrete fixtures -/

/-- Whether an awaited promise fulfilled (`.ok`). -/
def resolved {α : Type} : Except String α → Bool
  | .ok _ => true
  | .error _ => false

/-- A concrete runtime descriptor for fixtures. -/
def rtPython : Runtime := ⟨"python", "3.10.0"⟩

/-- A concrete runtime registry: exactly one runtime, matching the pair
`("python", "3")`. -/
def lookupPy : String → String → Option Runtime :=
  fun l v => if l == "python" && v == "3" then some rtPython else none

/-- A well-formed `files` value: one file object with a string content. -/
def goodFiles : JSVal := .arr [.obj [("content", .str "print(1)")]]

/-- A concrete Job value for fixtures. -/
def jobDemo : Job :=
  ⟨rtPython, .str "python", .arr [], .str "", goodFiles,
    ⟨.num 3000, .num 10000⟩, ⟨.num (-1), .num (-1)⟩⟩

/-- A concrete successful execution result for fixtures. -/
def execResultDemo : ExecResult :=
  ⟨"python", "3.10.0", ⟨"2\n", "", "2\n", some 0, none, 12, none⟩, none⟩

/-- Engine behaviour: `get_job` and `prime` succeed, `execute` rejects. -/
def behaviorExecError : EngineBehavior :=
  ⟨.ok jobDemo, .ok (), .error "internal error in run phase", .ok ()⟩

/-- Engine behaviour: `get_job` succeeds, `prime` rejects with slot
exhaustion. -/
def behaviorPrimeExhausted : EngineBehavior :=
  ⟨.ok jobDemo, .error "No free sandboxes", .ok execResultDemo, .ok ()⟩

/-- Engine behaviour: every stage succeeds. -/
def behaviorAllOk : EngineBehavior :=
  ⟨.ok jobDemo, .ok (), .ok execResultDemo, .ok ()⟩

/-- A request body that is valid except that `run_memory_limit` is −1. -/
def bodyRunMemNeg1 : Body :=
  ⟨.str "python", .str "3", .undefined, .undefined, goodFiles, .undefined,
    .num (-1), .undefined, .undefined⟩

/-- A request body that is valid except that `compile_memory_limit` is −1. -/
def bodyCompileMemNeg1 : Body :=
  ⟨.str "python", .str "3", .undefined, .undefined, goodFiles, .num (-1),
    .undefined, .undefined, .undefined⟩

/-- A request body satisfying every condition listed by claim C7 —
language and version are strings, files is an array of string contents,
the runtime matches — but whose `run_memory_limit` is a (truthy)
non-number. -/
def bodyStrRunMem : Body :=
  ⟨.str "python", .str "3", .undefined, .undefined, goodFiles, .undefined,
    .str "lots", .undefined, .undefined⟩

/-- A fully valid request body with no optional fields. -/
def bodyOk : Body :=
  ⟨.str "python", .str "3", .undefined, .undefined, goodFiles, .undefined,
    .undefined, .undefined, .undefined⟩

/-! ## Theorems -/

/-- C1: the claim requires `cleanup()` to run before the response on
every exit path of `POST /execute` once `prime()` succeeded. The code
violates it: when `execute()` rejects after a successful `prime()`, the
`catch` answers 400 directly and `cleanup` is never called, so the
acquired slot is not released. -/
theorem execute_error_skips_cleanup :
    (post_execute behaviorExecError).calls =
      [HandlerCall.prime, HandlerCall.execute] ∧
    HandlerCall.cleanup ∉ (post_execute behaviorExecError).calls ∧
    (post_execute behaviorExecError).status = 400 := by
  refine ⟨rfl, ?_, rfl⟩
  intro h
  have hc : (post_execute behaviorExecError).calls =
      [HandlerCall.prime, HandlerCall.execute] := rfl
  rw [hc] at h
  simp at h

/-- C2 counterexample: an engine error (slot exhaustion in `prime`)
is answered with status 400, which is not a 5xx status, refuting the
claimed validation→4xx / engine→5xx split. -/
theorem engine_error_yields_400_not_5xx :
    (post_execute behaviorPrimeExhausted).status = 400 ∧
    ¬ 500 ≤ (post_execute behaviorPrimeExhausted).status := by
  have h400 : (post_execute behaviorPrimeExhausted).status = 400 := rfl
  refine ⟨h400, ?_⟩
  rw [h400]
  omega

/-- C2 (amended): `POST /execute` answers 200 with the execution result
as body when every engine stage fulfills, and 400 — regardless of
whether the error was a validation error or an engine error — when any
stage rejects. -/
theorem post_execute_status_mapping (b : EngineBehavior) :
    (∀ (j : Job) (r : ExecResult),
      b.get_job_result = .ok j → b.prime_result = .ok () →
      b.execute_result = .ok r → b.cleanup_result = .ok () →
      (post_execute b).status = 200 ∧ (post_execute b).body = .ok r) ∧
    ((resolved b.get_job_result = false ∨ resolved b.prime_result = false ∨
      resolved b.execute_result = false ∨ resolved b.cleanup_result = false) →
      (post_execute b).status = 400) := by
  obtain ⟨g, p, e, c⟩ := b
  constructor
  · intro j r hg hp he hc
    rw [show g = Except.ok j from hg, show p = Except.ok () from hp,
      show e = Except.ok r from he, show c = Except.ok () from hc]
    exact ⟨rfl, rfl⟩
  · intro h
    cases g with
    | error _ => rfl
    | ok _ =>
      cases p with
      | error _ => rfl
      | ok u =>
        cases e with
        | error _ => rfl
        | ok _ =>
          cases c with
          | error _ => rfl
          | ok v =>
            cases u
            cases v
            simp [resolved] at h

/-- C2 witness: concrete behaviours showing both branches of
`post_execute_status_mapping`. -/
theorem post_execute_status_mapping_witness :
    (post_execute behaviorAllOk).status = 200 ∧
    (post_execute behaviorAllOk).body = .ok execResultDemo ∧
    (post_execute behaviorPrimeExhausted).status = 400 := by
  have h := (post_execute_status_mapping behaviorAllOk).1 jobDemo
    execResultDemo rfl rfl rfl rfl
  have h2 := (post_execute_status_mapping behaviorPrimeExhausted).2
    (Or.inr (Or.inl rfl))
  exact ⟨h.1, h.2, h2⟩

/-- C4: on an initialized session, a `signal` message is forwarded on
the bus's signal topic exactly when its name is in the `SIGNALS`
allow-list; any other value closes the session with code 4005 and
nothing is forwarded. -/
theorem signal_forwarded_iff_allowlisted (job : Job) (sig : JSVal) :
    (handle_signal (some job) sig = WsAction.emit "signal" sig ↔
      signalAllowed sig = true) ∧
    (signalAllowed sig = false →
      handle_signal (some job) sig = WsAction.close 4005 "Invalid signal") := by
  constructor
  · constructor
    · intro h
      by_cases hs : signalAllowed sig
      · exact hs
      · simp [handle_signal, hs] at h
    · intro hs
      simp [handle_signal, hs]
  · intro hs
    simp [handle_signal, hs]

/-- C4 witness: `SIGTERM` is forwarded, `SIGFOO` closes with 4005. -/
theorem signal_forwarded_iff_allowlisted_witness :
    handle_signal (some jobDemo) (.str "SIGTERM") =
      WsAction.emit "signal" (.str "SIGTERM") ∧
    handle_signal (some jobDemo) (.str "SIGFOO") =
      WsAction.close 4005 "Invalid signal" := by
  constructor
  · exact (signal_forwarded_iff_allowlisted jobDemo (.str "SIGTERM")).1.mpr
      (by decide)
  · exact (signal_forwarded_iff_allowlisted jobDemo (.str "SIGFOO")).2
      (by decide)

/-- C5: the initialization timer fires after 1000 ms; its callback
closes the session with code 4001 exactly when no job has been created,
and does nothing once a job exists. -/
theorem init_timeout_behavior :
    INIT_TIMEOUT_MS = 1000 ∧
    init_timeout_cb none = WsAction.close 4001 "Initialization Timeout" ∧
    (∀ j : Job, init_timeout_cb (some j) = WsAction.noop) := by
  exact ⟨rfl, rfl, fun _ => rfl⟩

/-- C6: on an initialized session a `data` message with stream
`"stdin"` is published on the bus's stdin topic, any other stream closes
the session with 4004; a `data` or `signal` message with no job closes
it with 4003. -/
theorem data_message_routing (job : Job) (stream payload sig : JSVal) :
    (stream = JSVal.str "stdin" →
      handle_data (some job) stream payload = WsAction.emit "stdin" payload) ∧
    (stream ≠ JSVal.str "stdin" →
      handle_data (some job) stream payload =
        WsAction.close 4004 "Can only write to stdin") ∧
    handle_data none stream payload =
      WsAction.close 4003 "Not yet initialized" ∧
    handle_signal none sig = WsAction.close 4003 "Not yet initialized" := by
  refine ⟨?_, ?_, rfl, rfl⟩
  · intro h
    subst h
    simp [handle_data, isStreamStdin]
  · intro h
    have hs : isStreamStdin stream = false := by
      cases stream with
      | str s =>
        simp only [isStreamStdin, beq_eq_false_iff_ne]
        intro hss
        exact h (by rw [hss])
      | null => rfl
      | undefined => rfl
      | boolv b => rfl
      | num n => rfl
      | arr xs => rfl
      | obj fs => rfl
    simp [handle_data, hs]

/-- C6 witness: stdin data is forwarded, stdout data closes with 4004,
uninitialized data and signal close with 4003. -/
theorem data_message_routing_witness :
    handle_data (some jobDemo) (.str "stdin") (.str "hi") =
      WsAction.emit "stdin" (.str "hi") ∧
    handle_data (some jobDemo) (.str "stdout") (.str "hi") =
      WsAction.close 4004 "Can only write to stdin" ∧
    handle_data none (.str "stdin") (.str "hi") =
      WsAction.close 4003 "Not yet initialized" := by
  have h := data_message_routing jobDemo (.str "stdout") (.str "hi")
    (.str "SIGTERM")
  have h1 := data_message_routing jobDemo (.str "stdin") (.str "hi")
    (.str "SIGTERM")
  refine ⟨h1.1 rfl, h.2.1 ?_, h1.2.2.1⟩
  intro hh
  injection hh with hh2
  exact absurd hh2 (by decide)

/-- C8: the mono compile script branches on `PISTON_LANGUAGE`: `csharp`
renames the staged files to `.cs` and compiles with `csc`, `basic`
renames to `.vb` and compiles with `vbnc`, and every other value prints
a diagnostic and exits with status 1. -/
theorem mono_compile_language_branches (lang out : String) (s : Nat) :
    (mono_compile "csharp" out s).renameExt = some ".cs" ∧
    (mono_compile "csharp" out s).compiler = some "csc" ∧
    (mono_compile "basic" out s).renameExt = some ".vb" ∧
    (mono_compile "basic" out s).compiler = some "vbnc" ∧
    (lang ≠ "csharp" → lang ≠ "basic" →
      (mono_compile lang out s).diag =
        some ("How did you get here? (" ++ lang ++ ")") ∧
      (mono_compile lang out s).exitStatus = 1) := by
  refine ⟨rfl, rfl, rfl, rfl, ?_⟩
  intro h1 h2
  have hc : (lang == "csharp") = false := beq_eq_false_iff_ne.mpr h1
  have hb : (lang == "basic") = false := beq_eq_false_iff_ne.mpr h2
  simp [mono_compile, hc, hb]

/-- C8 witness: a language outside the two branches hits the fallback. -/
theorem mono_compile_language_branches_witness :
    (mono_compile "python" "" 0).diag =
      some ("How did you get here? (" ++ "python" ++ ")") ∧
    (mono_compile "python" "" 0).exitStatus = 1 := by
  exact (mono_compile_language_branches "python" "" 0).2.2.2.2
    (by decide) (by decide)

/-- C9: the WebSocket close handler invokes `cleanup()` exactly when a
job exists; the spec-modelled `cleanup` moves any job — whatever phase
it is in — to `Cleaned` with its slot released; with no job nothing is
cleaned up. -/
theorem ws_close_runs_cleanup (j : JobRun) :
    handle_close (some j) = (some (cleanup j), true) ∧
    (cleanup j).state = JobState.Cleaned ∧
    (cleanup j).holdsSlot = false ∧
    handle_close none = (none, false) := by
  exact ⟨rfl, rfl, rfl, rfl⟩

/-- C10: for the `csharp` and `basic` branches the script's exit status
is that of `check_errors` (whose last command is `rm check.txt`), i.e.
0 for every compiler exit status; captured output containing an
`error [A-Z]+[0-9]+:` diagnostic is routed to stderr, otherwise to
stdout. -/
theorem mono_compile_exit_ignores_compiler (lang out : String) (s : Nat) :
    (lang = "csharp" ∨ lang = "basic" →
      (mono_compile lang out s).exitStatus = 0 ∧
      (mono_compile lang out s).checkOut = some (check_errors out)) ∧
    (hasErrorDiag out.data = true →
      (check_errors out).toStderr = some out ∧
      (check_errors out).toStdout = none) ∧
    (hasErrorDiag out.data = false →
      (check_errors out).toStdout = some out ∧
      (check_errors out).toStderr = none) ∧
    (check_errors out).status = 0 := by
  refine ⟨?_, ?_, ?_, ?_⟩
  · rintro (h | h) <;> subst h <;>
      simp [mono_compile, check_errors] <;> split <;> rfl
  · intro h
    simp [check_errors, h]
  · intro h
    simp [check_errors, h]
  · simp [check_errors]
    split <;> rfl

/-- C10 witness: a diagnostic-bearing output under `csharp` exits 0 and
goes to stderr even though the compiler reported status 1. -/
theorem mono_compile_exit_ignores_compiler_witness :
    (mono_compile "csharp" "error A1:" 1).exitStatus = 0 ∧
    (check_errors "error A1:").toStderr = some "error A1:" := by
  have h := mono_compile_exit_ignores_compiler "csharp" "error A1:" 1
  exact ⟨(h.1 (Or.inl rfl)).1, (h.2.1 (by decide)).1⟩

/-- Evaluation of `get_job` on `bodyRunMemNeg1` for an arbitrary
configuration: −1 is rejected exactly when the configured run ceiling
is nonnegative. -/
theorem get_job_runMemNeg1_eval (cfg : Config) :
    get_job lookupPy cfg bodyRunMemNeg1 =
      if 0 ≤ cfg.run_memory_limit then
        .error ("run_memory_limit cannot exceed the configured limit of "
          ++ toString cfg.run_memory_limit)
      else .ok ⟨rtPython, .str "python", .arr [], .str "", goodFiles,
        ⟨.num 3000, .num 10000⟩,
        ⟨.num (-1), .num cfg.compile_memory_limit⟩⟩ := by
  by_cases h : 0 ≤ cfg.run_memory_limit
  · rw [if_pos h]
    simp [get_job, bodyRunMemNeg1, goodFiles, truthy, isString, isArray,
      isNumber, numVal, strVal, arrElems, first_bad_content, getField,
      lookupPy, jsOr, h]
  · rw [if_neg h]
    simp [get_job, bodyRunMemNeg1, goodFiles, truthy, isString, isArray,
      isNumber, numVal, strVal, arrElems, first_bad_content, getField,
      lookupPy, jsOr, h]

/-- Evaluation of `get_job` on `bodyCompileMemNeg1` for an arbitrary
configuration: −1 is rejected exactly when the configured compile
ceiling is nonnegative. -/
theorem get_job_compileMemNeg1_eval (cfg : Config) :
    get_job lookupPy cfg bodyCompileMemNeg1 =
      if 0 ≤ cfg.compile_memory_limit then
        .error ("compile_memory_limit cannot exceed the configured limit of "
          ++ toString cfg.compile_memory_limit)
      else .ok ⟨rtPython, .str "python", .arr [], .str "", goodFiles,
        ⟨.num 3000, .num 10000⟩,
        ⟨.num cfg.run_memory_limit, .num (-1)⟩⟩ := by
  by_cases h : 0 ≤ cfg.compile_memory_limit
  · rw [if_pos h]
    simp [get_job, bodyCompileMemNeg1, goodFiles, truthy, isString, isArray,
      isNumber, numVal, strVal, arrElems, first_bad_content, getField,
      lookupPy, jsOr, h]
  · rw [if_neg h]
    simp [get_job, bodyCompileMemNeg1, goodFiles, truthy, isString, isArray,
      isNumber, numVal, strVal, arrElems, first_bad_content, getField,
      lookupPy, jsOr, h]

/-- C3 counterexample: with a configured run ceiling of 1000 — a
perfectly ordinary configuration — a request asking for
`run_memory_limit = −1` is rejected by `get_job`, not resolved, because
`−1 < 0` trips the ceiling check whenever the ceiling is nonnegative. -/
theorem neg1_run_memory_rejected_under_ceiling :
    lookupPy "python" "3" = some rtPython ∧
    get_job lookupPy ⟨1000, 1000⟩ bodyRunMemNeg1 =
      .error "run_memory_limit cannot exceed the configured limit of 1000" := by
  constructor
  · rfl
  · rw [get_job_runMemNeg1_eval]
    rw [if_pos (by norm_num : (0:Int) ≤ 1000)]
    exact congrArg Except.error (by decide)

/-- C3 (amended): a memory limit of −1 resolves to a Job (whose
resulting limit is the unlimited value −1) exactly when the
corresponding configured ceiling is itself negative (unlimited); under
any nonnegative configured ceiling, −1 is rejected. -/
theorem neg1_memory_accepted_iff_no_ceiling (cfg : Config) :
    (cfg.run_memory_limit < 0 →
      ∃ j, get_job lookupPy cfg bodyRunMemNeg1 = .ok j ∧
        j.memory_limits.run = JSVal.num (-1)) ∧
    (0 ≤ cfg.run_memory_limit →
      resolved (get_job lookupPy cfg bodyRunMemNeg1) = false) ∧
    (cfg.compile_memory_limit < 0 →
      ∃ j, get_job lookupPy cfg bodyCompileMemNeg1 = .ok j ∧
        j.memory_limits.compile = JSVal.num (-1)) ∧
    (0 ≤ cfg.compile_memory_limit →
      resolved (get_job lookupPy cfg bodyCompileMemNeg1) = false) := by
  refine ⟨?_, ?_, ?_, ?_⟩
  · intro h
    rw [get_job_runMemNeg1_eval, if_neg (not_le.mpr h)]
    exact ⟨_, rfl, rfl⟩
  · intro h
    rw [get_job_runMemNeg1_eval, if_pos h]
    rfl
  · intro h
    rw [get_job_compileMemNeg1_eval, if_neg (not_le.mpr h)]
    exact ⟨_, rfl, rfl⟩
  · intro h
    rw [get_job_compileMemNeg1_eval, if_pos h]
    rfl

/-- C3 witness: a negative (unlimited) ceiling accepts −1; a ceiling of
1000 rejects it. -/
theorem neg1_memory_accepted_iff_no_ceiling_witness :
    (∃ j, get_job lookupPy ⟨-1, -1⟩ bodyRunMemNeg1 = .ok j ∧
      j.memory_limits.run = JSVal.num (-1)) ∧
    resolved (get_job lookupPy ⟨-1, 1000⟩ bodyRunMemNeg1) = false := by
  constructor
  · exact (neg1_memory_accepted_iff_no_ceiling ⟨-1, -1⟩).1 (by norm_num)
  · exact (neg1_memory_accepted_iff_no_ceiling ⟨-1, 1000⟩).2.1 (by norm_num)

/-- Semantic reading of the language/version check of `get_job`:
`!v || typeof v !== 'string'` fails exactly for a nonempty string. -/
theorem nonempty_string_check (v : JSVal) :
    (!truthy v || !isString v) = false ↔ ∃ s, v = JSVal.str s ∧ s ≠ "" := by
  cases v <;> simp [truthy, isString]

/-- Semantic reading of the files check of `get_job`:
`!v || !Array.isArray(v)` fails exactly for an array. -/
theorem array_check (v : JSVal) :
    (!truthy v || !isArray v) = false ↔ ∃ xs, v = JSVal.arr xs := by
  cases v <;> simp [truthy, isArray]

/-- The file-content loop of `get_job` finds no offender exactly when
every file's `.content` is a string. -/
theorem first_bad_content_none_iff (xs : List JSVal) (i : Nat) :
    first_bad_content xs i = none ↔
      ∀ f ∈ xs, isString (getField f "content") = true := by
  induction xs generalizing i with
  | nil => simp [first_bad_content]
  | cons f rest ih =>
    by_cases hf : isString (getField f "content") = true
    · rw [show first_bad_content (f :: rest) i = first_bad_content rest (i + 1)
        from by simp [first_bad_content, hf]]
      rw [ih]
      simp [hf]
    · rw [show first_bad_content (f :: rest) i = some i
        from by simp [first_bad_content, hf]]
      simp [hf]

/-- Semantic reading of the paired memory-limit checks of `get_job`:
both pass exactly when a truthy limit is a number that, under a
nonnegative ceiling, lies in `[0, ceiling]`. -/
theorem mem_limit_checks (v : JSVal) (ceil : Int) :
    ((truthy v && !isNumber v) = false ∧
     (truthy v && (decide (0 ≤ ceil) &&
       (decide (ceil < numVal v) || decide (numVal v < 0)))) = false) ↔
    (truthy v = true →
      ∃ n, v = JSVal.num n ∧ (0 ≤ ceil → 0 ≤ n ∧ n ≤ ceil)) := by
  cases v <;> simp [truthy, isNumber, numVal]
  case num n =>
    by_cases hn : n = 0
    · simp [hn]
    · simp [hn]
      constructor
      · intro h hc
        omega
      · intro h
        omega

/-- C7 (amended): `get_job` resolves to a Job exactly when the language
is a nonempty string, the version is a nonempty string, the files field
is an array all of whose elements have a string `.content`, each
supplied (truthy) memory limit is a number within the corresponding
nonnegative configured ceiling (or the ceiling is negative), and a
runtime matches the (language, version) pair; each rejection carries a
descriptive message, as the reject branches of `get_job` show. -/
theorem get_job_resolves_iff (lookup : String → String → Option Runtime)
    (cfg : Config) (body : Body) :
    resolved (get_job lookup cfg body) = true ↔
      ((∃ s, body.language = JSVal.str s ∧ s ≠ "") ∧
       (∃ s, body.version = JSVal.str s ∧ s ≠ "") ∧
       (∃ xs, body.files = JSVal.arr xs ∧
         ∀ f ∈ xs, isString (getField f "content") = true) ∧
       (truthy body.compile_memory_limit = true →
         ∃ n, body.compile_memory_limit = JSVal.num n ∧
           (0 ≤ cfg.compile_memory_limit →
             0 ≤ n ∧ n ≤ cfg.compile_memory_limit)) ∧
       (truthy body.run_memory_limit = true →
         ∃ n, body.run_memory_limit = JSVal.num n ∧
           (0 ≤ cfg.run_memory_limit → 0 ≤ n ∧ n ≤ cfg.run_memory_limit)) ∧
       (∃ rt, lookup (strVal body.language) (strVal body.version) = some rt)) := by
  unfold get_job
  split
  next h1 =>
    constructor
    · intro h
      simp [resolved] at h
    · rintro ⟨⟨s, hs, hne⟩, -, -, -, -, -⟩
      have hc := (nonempty_string_check body.language).mpr ⟨s, hs, hne⟩
      rw [hc] at h1
      simp at h1
  next h1 =>
    split
    next h2 =>
      constructor
      · intro h
        simp [resolved] at h
      · rintro ⟨-, ⟨s, hs, hne⟩, -, -, -, -⟩
        have hc := (nonempty_string_check body.version).mpr ⟨s, hs, hne⟩
        rw [hc] at h2
        simp at h2
    next h2 =>
      split
      next h3 =>
        constructor
        · intro h
          simp [resolved] at h
        · rintro ⟨-, -, ⟨xs, hxs, -⟩, -, -, -⟩
          have hc := (array_check body.files).mpr ⟨xs, hxs⟩
          rw [hc] at h3
          simp at h3
      next h3 =>
        split
        next i hi =>
          constructor
          · intro h
            simp [resolved] at h
          · rintro ⟨-, -, ⟨xs, hxs, hall⟩, -, -, -⟩
            rw [hxs] at hi
            simp only [arrElems] at hi
            rw [(first_bad_content_none_iff xs 0).mpr hall] at hi
            simp at hi
        next hi =>
          split
          next h5 =>
            constructor
            · intro h
              simp [resolved] at h
            · rintro ⟨-, -, -, hcm, -, -⟩
              have hc := (mem_limit_checks body.compile_memory_limit
                cfg.compile_memory_limit).mpr hcm
              rw [hc.1] at h5
              simp at h5
          next h5 =>
            split
            next h6 =>
              constructor
              · intro h
                simp [resolved] at h
              · rintro ⟨-, -, -, hcm, -, -⟩
                have hc := (mem_limit_checks body.compile_memory_limit
                  cfg.compile_memory_limit).mpr hcm
                rw [hc.2] at h6
                simp at h6
            next h6 =>
              split
              next h7 =>
                constructor
                · intro h
                  simp [resolved] at h
                · rintro ⟨-, -, -, -, hrm, -⟩
                  have hc := (mem_limit_checks body.run_memory_limit
                    cfg.run_memory_limit).mpr hrm
                  rw [hc.1] at h7
                  simp at h7
              next h7 =>
                split
                next h8 =>
                  constructor
                  · intro h
                    simp [resolved] at h
                  · rintro ⟨-, -, -, -, hrm, -⟩
                    have hc := (mem_limit_checks body.run_memory_limit
                      cfg.run_memory_limit).mpr hrm
                    rw [hc.2] at h8
                    simp at h8
                next h8 =>
                  split
                  next h9 =>
                    constructor
                    · intro h
                      simp [resolved] at h
                    · rintro ⟨-, -, -, -, -, ⟨rt, hrt⟩⟩
                      rw [h9] at hrt
                      simp at hrt
                  next rt h9 =>
                    constructor
                    · intro _
                      refine ⟨(nonempty_string_check body.language).mp
                          (by simpa using h1),
                        (nonempty_string_check body.version).mp
                          (by simpa using h2),
                        ?_, ?_, ?_, ⟨rt, h9⟩⟩
                      · obtain ⟨xs, hxs⟩ :=
                          (array_check body.files).mp (by simpa using h3)
                        refine ⟨xs, hxs, ?_⟩
                        rw [hxs] at hi
                        simp only [arrElems] at hi
                        exact (first_bad_content_none_iff xs 0).mp hi
                      · exact (mem_limit_checks _ _).mp
                          ⟨by simpa using h5, by simpa using h6⟩
                      · exact (mem_limit_checks _ _).mp
                          ⟨by simpa using h7, by simpa using h8⟩
                    · intro _
                      simp [resolved]

/-- C7 counterexample: a request body meeting every condition the claim
lists — nonempty string language and version, an array of files each
with string content, a matching runtime — is nevertheless rejected,
because its `run_memory_limit` is a truthy non-number, a case the claim
omits; so `get_job` does not resolve "otherwise". -/
theorem get_job_rejects_nonnumeric_run_memory :
    bodyStrRunMem.language = JSVal.str "python" ∧
    bodyStrRunMem.version = JSVal.str "3" ∧
    bodyStrRunMem.files =
      JSVal.arr [JSVal.obj [("content", JSVal.str "print(1)")]] ∧
    lookupPy "python" "3" = some rtPython ∧
    get_job lookupPy ⟨-1, -1⟩ bodyStrRunMem =
      .error "if specified, run_memory_limit must be a number" := by
  exact ⟨rfl, rfl, rfl, rfl, rfl⟩

/-- C7 witness: a fully valid body resolves. -/
theorem get_job_resolves_iff_witness :
    resolved (get_job lookupPy ⟨-1, -1⟩ bodyOk) = true := by
  refine (get_job_resolves_iff lookupPy ⟨-1, -1⟩ bodyOk).mpr
    ⟨⟨"python", rfl, by decide⟩, ⟨"3", rfl, by decide⟩,
     ⟨[JSVal.obj [("content", JSVal.str "print(1)")]], rfl, ?_⟩, ?_, ?_,
     ⟨rtPython, rfl⟩⟩
  · intro f hf
    simp at hf
    subst hf
    rfl
  · intro h
    exact absurd h (by decide)
  · intro h
    exact absurd h (by decide)

end Piston
